import Mathlib

/-!
Verification of the DevContainer buildpack
(`repo2docker/buildpacks/devcontainer.py`).

The Python source is shallowly embedded below: strings are modelled as
`String` (scanned as `List Char`), JSON command specifications as the
inductive `CommandSpec`, dictionaries as association lists in insertion
order, and Python `None` results as `Option`.  Each definition is a direct
transcription of the corresponding Python function, keeping its name.
-/

/- ===== Section 1: the JSONC comment stripper (`_strip_jsonc_comments`) ===== -/

/-- The inner loop of the block-comment skip in `_strip_jsonc_comments`
(lines 137-145): after `i += 2` past the opener, Python runs
`while i < len(content) - 1`, i.e. while at least two characters remain; on
`*/` it advances past the closer and breaks, otherwise it advances one
character.  When fewer than two characters remain the loop exits and the
main scan resumes at the current position, so a 0- or 1-character remainder
is returned unconsumed. -/
def skipBlockComment : List Char → List Char
  | a :: b :: t => if a = '*' ∧ b = '/' then t else skipBlockComment (b :: t)
  | l => l

theorem skipBlockComment_length_le : ∀ l : List Char, (skipBlockComment l).length ≤ l.length
  | [] => by simp [skipBlockComment]
  | [a] => by simp [skipBlockComment]
  | a :: b :: t => by
    rw [skipBlockComment]
    split
    · simp; omega
    · have := skipBlockComment_length_le (b :: t)
      simp at this ⊢
      omega

/-- The character scan of `_strip_jsonc_comments` (lines 102-150), with the
scan state (`in_string`, `escape_next`) passed explicitly.  Branches in
source order: pending escape copies the character and clears the flag; a
backslash inside a string copies and sets the flag; a double quote copies
and toggles `in_string`; outside a string `//` skips up to (not past) the
next newline — the two slashes themselves are `≠ '\n'`, so dropping from
the tail is the same skip; outside a string `/*` skips via
`skipBlockComment`; otherwise the character is copied.  (The source's
quote branch also tests `not escape_next`, but the first branch has
already consumed a pending escape, so `escape_next` is always false
there; the redundant conjunct is dropped.) -/
def stripAux : List Char → Bool → Bool → List Char
  | [], _, _ => []
  | c :: rest, inString, escapeNext =>
    if escapeNext then c :: stripAux rest inString false
    else if c = '\\' ∧ inString = true then c :: stripAux rest inString true
    else if c = '"' then c :: stripAux rest (!inString) false
    else if inString = false ∧ c = '/' ∧ rest.head? = some '/' then
      stripAux (rest.dropWhile (fun x => x ≠ '\n')) false false
    else if inString = false ∧ c = '/' ∧ rest.head? = some '*' then
      stripAux (skipBlockComment rest.tail) false false
    else
      c :: stripAux rest inString escapeNext
termination_by l _ _ => l.length
decreasing_by
  all_goals simp
  · exact Nat.lt_succ_of_le ((List.dropWhile_sublist _).length_le)
  · have h1 := skipBlockComment_length_le rest.tail
    have h2 : rest.tail.length ≤ rest.length := by cases rest <;> simp
    omega

/-- `_strip_jsonc_comments`, entered with `in_string = escape_next = False`. -/
def strip_jsonc_comments (s : String) : String := String.mk (stripAux s.data false false)

/-- Companion scan to `stripAux`: does the scanner, tracking the same
(`in_string`, `escape_next`) state over the same branches, ever reach a
position outside a string whose two-character lookahead is `//` or `/*`
(i.e. would either comment branch of `_strip_jsonc_comments` fire)? -/
def hasCommentAux : List Char → Bool → Bool → Bool
  | [], _, _ => false
  | c :: rest, inString, escapeNext =>
    if escapeNext then hasCommentAux rest inString false
    else if c = '\\' ∧ inString = true then hasCommentAux rest inString true
    else if c = '"' then hasCommentAux rest (!inString) false
    else if inString = false ∧ c = '/' ∧ (rest.head? = some '/' ∨ rest.head? = some '*') then
      true
    else hasCommentAux rest inString escapeNext

/-- Whether the scanner of `_strip_jsonc_comments` would find a `//` or `/*`
comment opener outside a double-quoted string anywhere in `s`. -/
def hasCommentOutsideString (s : String) : Bool := hasCommentAux s.data false false

/-- When neither comment branch ever fires, every branch of the scan copies
the current character, so the output is the input. -/
theorem stripAux_of_no_comment : ∀ (l : List Char) (inS esc : Bool),
    hasCommentAux l inS esc = false → stripAux l inS esc = l := by
  intro l
  induction l with
  | nil => intro inS esc _; simp [stripAux]
  | cons c rest ih =>
    intro inS esc h
    rw [hasCommentAux] at h
    rw [stripAux]
    split_ifs at h ⊢ with h1 h2 h3 h4 h5 h6 h7
    all_goals first
      | rw [ih _ _ h]
      | tauto

/-- A kept character that is not `/` and not `*` stays at the head of the
stripped output: no branch of the scan can consume it. -/
theorem stripAux_head_safe (rest : List Char) (h : rest.head? ≠ some '/')
    (h2 : rest.head? ≠ some '*') :
    (stripAux rest false false).head? ≠ some '/' ∧ (stripAux rest false false).head? ≠ some '*' := by
  cases rest with
  | nil => simp [stripAux]
  | cons d t =>
    simp only [List.head?_cons, Option.some.injEq] at h h2
    rw [stripAux]
    split_ifs <;> simp_all

/-- Output of the stripper never contains a removable comment: whenever the
scan copies a `/`, the guards of the comment branches force the next input
character to be neither `/` nor `*`, and that character is itself kept, so
no new comment opener can appear across a skipped region. -/
theorem no_comment_in_stripAux : ∀ (n : Nat) (l : List Char), l.length ≤ n → ∀ (inS esc : Bool),
    hasCommentAux (stripAux l inS esc) inS esc = false := by
  intro n
  induction n with
  | zero =>
    intro l hl inS esc
    have : l = [] := List.length_eq_zero.mp (Nat.le_zero.mp hl)
    subst this; simp [stripAux, hasCommentAux]
  | succ n ih =>
    intro l hl inS esc
    match l with
    | [] => simp [stripAux, hasCommentAux]
    | c :: rest =>
      simp only [List.length_cons] at hl
      have hr : rest.length ≤ n := by omega
      rw [stripAux]
      split_ifs with h1 h2 h3 h4 h5
      · rw [hasCommentAux, if_pos h1]
        exact ih rest hr inS false
      · obtain ⟨hc, hs⟩ := h2
        rw [hasCommentAux, if_neg h1, if_pos ⟨hc, hs⟩]
        exact ih rest hr inS true
      · rw [hasCommentAux, if_neg h1, if_neg h2, if_pos h3]
        exact ih rest hr (!inS) false
      · obtain ⟨hins, -, -⟩ := h4
        have hesc : esc = false := by simpa using h1
        subst hins; subst hesc
        have hd : (rest.dropWhile (fun x => x ≠ '\n')).length ≤ n :=
          le_trans (List.dropWhile_sublist _).length_le hr
        exact ih _ hd false false
      · obtain ⟨hins, -, -⟩ := h5
        have hesc : esc = false := by simpa using h1
        subst hins; subst hesc
        have hb : (skipBlockComment rest.tail).length ≤ n := by
          have := skipBlockComment_length_le rest.tail
          have ht : rest.tail.length ≤ rest.length := by cases rest <;> simp
          omega
        exact ih _ hb false false
      · rw [hasCommentAux, if_neg h1, if_neg h2, if_neg h3]
        have hesc : esc = false := by simpa using h1
        rw [if_neg ?hno]
        · exact ih rest hr inS esc
        case hno =>
          rintro ⟨hins, hslash, hhead⟩
          have hr1 : rest.head? ≠ some '/' := fun hh => h4 ⟨hins, hslash, hh⟩
          have hr2 : rest.head? ≠ some '*' := fun hh => h5 ⟨hins, hslash, hh⟩
          subst hins
          rw [hesc] at hhead
          have hsafe := stripAux_head_safe rest hr1 hr2
          rcases hhead with hh | hh
          · exact hsafe.1 hh
          · exact hsafe.2 hh

/-- No adjacent `*/` pair anywhere in the list: exactly the condition under
which the block-comment skip of `_strip_jsonc_comments` never finds a
closer. -/
def noBlockCommentEnd : List Char → Bool
  | a :: b :: t => !(a = '*' && b = '/') && noBlockCommentEnd (b :: t)
  | _ => true

/-- With no closer anywhere, the skip loop stops with exactly one character
left (the loop condition needs two remaining), or none when the comment
opener ends the input. -/
theorem skipBlockComment_unterminated : ∀ l : List Char, noBlockCommentEnd l = true →
    skipBlockComment l = l.getLast?.toList := by
  intro l
  induction l with
  | nil => simp [skipBlockComment]
  | cons a t ih =>
    intro h
    cases t with
    | nil => simp [skipBlockComment]
    | cons b t' =>
      rw [skipBlockComment]
      rw [noBlockCommentEnd] at h
      simp only [Bool.and_eq_true, Bool.not_eq_true'] at h
      rw [if_neg (by simpa using h.1)]
      rw [ih h.2]
      simp

/-- A single character entering the scan outside a string is always copied:
neither comment guard can fire on a one-character remainder. -/
theorem stripAux_singleton (c : Char) : stripAux [c] false false = [c] := by
  rw [stripAux]
  split_ifs with h1 h2 h3 <;> simp_all [stripAux]

/-- Behaviour of the stripper at an unterminated block comment: everything
after the opener is consumed except the final input character, which the
main loop processes (and copies) after the skip loop exits. -/
theorem strip_unterminated_block (l : List Char) (h : noBlockCommentEnd l = true) :
    stripAux ('/' :: '*' :: l) false false = l.getLast?.toList := by
  rw [stripAux]
  rw [if_neg (by simp), if_neg (by simp), if_neg (by simp), if_neg (by simp)]
  rw [if_pos ⟨rfl, rfl, rfl⟩]
  simp only [List.tail_cons]
  rw [skipBlockComment_unterminated l h]
  cases hl : l.getLast? with
  | none => simp [stripAux]
  | some c => simp [stripAux_singleton]

/- ===== Section 2: lifecycle command normalization (`_format_lifecycle_command`) ===== -/

/-- CPython `shlex.quote`'s safe-character class (the complement of its
`_find_unsafe` regex under `re.ASCII`): ASCII letters and digits,
underscore, and the punctuation `@ % + = : , . / -`. -/
def shlexSafeChar (c : Char) : Bool :=
  c.isAlphanum || c = '_' || c = '@' || c = '%' || c = '+' || c = '=' ||
    c = ':' || c = ',' || c = '.' || c = '/' || c = '-'

/-- CPython `shlex.quote`: the empty string becomes two single quotes; a
string of safe characters is returned unchanged; anything else is wrapped
in single quotes with each embedded single quote replaced by the
five-character sequence quote, double quote, quote, double quote, quote. -/
def shlexQuote (s : String) : String :=
  if s = "" then String.mk ['\'', '\'']
  else if s.data.all shlexSafeChar then s
  else
    String.mk (['\''] ++
      s.data.flatMap (fun c => if c = '\'' then ['\'', '"', '\'', '"', '\''] else [c]) ++
      ['\''])

/-- A devcontainer lifecycle command value as `_format_lifecycle_command`
type-dispatches on it: a JSON string, a JSON array of tokens, a JSON object
of named sub-commands in declaration order, or any other value
(`null`, a number, a boolean, ...).  The `Bool` carried by `other` is that
value's own Python truthiness, which callers test with `if command:` before
formatting; `_format_lifecycle_command` itself returns `None` for every
`other` value. -/
inductive CommandSpec where
  | str : String → CommandSpec
  | list : List String → CommandSpec
  | dict : List (String × CommandSpec) → CommandSpec
  | other : Bool → CommandSpec

mutual

/-- `_format_lifecycle_command` (lines 357-395): a string passes through; a
list is shell-quoted token-wise and joined by single spaces; a dict is
folded into a `commands` list that gets two entries - the comment line
`# <name>` and the formatted value - per entry whose formatted value is
truthy (not `None`, not empty), and the whole list is joined with
`" && \\\n"`, or `None` when the list stayed empty; any other value gives
`None`. -/
def format_lifecycle_command : CommandSpec → Option String
  | .str s => some s
  | .list parts => some (" ".intercalate (parts.map shlexQuote))
  | .dict entries =>
    let commands := formatDictEntries entries []
    if commands = [] then none else some (" && \\\n".intercalate commands)
  | .other _ => none

/-- The dict loop of `_format_lifecycle_command` (lines 387-392), with the
`commands` accumulator explicit: `if formatted:` keeps an entry only when
the recursive result is a non-`None`, non-empty string. -/
def formatDictEntries : List (String × CommandSpec) → List String → List String
  | [], acc => acc
  | (name, cmd) :: rest, acc =>
    match format_lifecycle_command cmd with
    | some f => if f ≠ "" then formatDictEntries rest (acc ++ ["# " ++ name, f])
                else formatDictEntries rest acc
    | none => formatDictEntries rest acc

end

/-- Appending to the accumulator commutes with running the dict loop from an
empty accumulator. -/
theorem formatDictEntries_acc (entries : List (String × CommandSpec)) :
    ∀ acc : List String, formatDictEntries entries acc = acc ++ formatDictEntries entries [] := by
  induction entries with
  | nil => intro acc; simp [formatDictEntries]
  | cons e rest ih =>
    intro acc
    obtain ⟨name, cmd⟩ := e
    rw [formatDictEntries, formatDictEntries]
    cases hf : format_lifecycle_command cmd with
    | none =>
      simp only [hf]
      exact ih acc
    | some f =>
      simp only [hf]
      by_cases hne : f = ""
      · rw [if_neg (by simp [hne]), if_neg (by simp [hne])]
        exact ih acc
      · rw [if_pos hne, if_pos hne]
        simp only [List.nil_append]
        rw [ih (acc ++ ["# " ++ name, f]), ih (["# " ++ name, f])]
        rw [List.append_assoc]

/-- The dict loop is the concatenation, in declaration order, of a
two-element block per entry whose formatted value is truthy. -/
theorem formatDictEntries_eq_flatMap (entries : List (String × CommandSpec)) :
    formatDictEntries entries [] =
      entries.flatMap (fun e =>
        match format_lifecycle_command e.2 with
        | some f => if f ≠ "" then ["# " ++ e.1, f] else []
        | none => []) := by
  induction entries with
  | nil => simp [formatDictEntries]
  | cons e rest ih =>
    obtain ⟨name, cmd⟩ := e
    rw [formatDictEntries, List.flatMap_cons]
    cases hf : format_lifecycle_command cmd with
    | none =>
      simp only [hf]
      rw [ih]
      simp
    | some f =>
      simp only [hf]
      by_cases hne : f = ""
      · rw [if_neg (by simp [hne]), if_neg (by simp [hne])]
        rw [ih]
        simp
      · rw [if_pos hne, if_pos hne]
        simp only [List.nil_append]
        rw [formatDictEntries_acc rest (["# " ++ name, f]), ih]

/- ===== Section 3: environment extraction (`get_build_env`, `get_env`) ===== -/

/-- The skip condition of `get_build_env` / `get_env` (lines 246 and 261):
Python's substring test `"${localEnv:" in value or "${localWorkspaceFolder"
in value`, as decidable infix of character lists. -/
def usesLocalSubstitution (v : String) : Bool :=
  decide ("$\x7blocalEnv:".data <:+: v.data) || decide ("$\x7blocalWorkspaceFolder".data <:+: v.data)

/-- `get_build_env` (lines 230-249): start from the superclass environment
and append, in insertion order, every `containerEnv` entry whose value does
not use a local substitution. -/
def get_build_env (base : List (String × String)) (containerEnv : List (String × String)) :
    List (String × String) :=
  containerEnv.foldl (fun env kv => if usesLocalSubstitution kv.2 then env else env ++ [kv]) base

/-- `get_env` (lines 251-264): identical filtering over `remoteEnv`. -/
def get_env (base : List (String × String)) (remoteEnv : List (String × String)) :
    List (String × String) :=
  remoteEnv.foldl (fun env kv => if usesLocalSubstitution kv.2 then env else env ++ [kv]) base

/-- The append-in-a-loop accumulation is the base followed by a filter. -/
theorem env_foldl_eq_filter (l : List (String × String)) :
    ∀ base : List (String × String),
      l.foldl (fun env kv => if usesLocalSubstitution kv.2 then env else env ++ [kv]) base =
        base ++ l.filter (fun kv => !usesLocalSubstitution kv.2) := by
  induction l with
  | nil => intro base; simp
  | cons kv rest ih =>
    intro base
    rw [List.foldl_cons, List.filter_cons]
    by_cases hb : usesLocalSubstitution kv.2
    · rw [if_pos hb, ih base]
      simp [hb]
    · rw [if_neg hb, ih (base ++ [kv])]
      simp [hb]

/- ===== Section 4: VS Code extension mapping (`_map_extension_to_openvsx`, `_generate_extension_install_commands`) ===== -/

/-- The `PROPRIETARY_EXTENSIONS` class attribute (lines 419-428); a Python
set used only for membership tests. -/
def PROPRIETARY_EXTENSIONS : List String :=
  ["ms-python.vscode-pylance", "ms-vscode.cpptools", "ms-dotnettools.csharp",
   "ms-vscode-remote.remote-ssh", "ms-vscode-remote.remote-containers",
   "ms-vscode-remote.remote-wsl", "github.copilot", "github.copilot-chat"]

/-- The `EXTENSION_MAPPINGS` class attribute (lines 432-434): empty in the
source ("Add any known mappings here if publishers differ on Open VSX"). -/
def EXTENSION_MAPPINGS : List (String × String) := []

/-- `_map_extension_to_openvsx` (lines 451-471): returns
`(mapped_id?, warning?)`. -/
def map_extension_to_openvsx (e : String) : Option String × Option String :=
  if e ∈ PROPRIETARY_EXTENSIONS then
    (none, some ("Extension '" ++ e ++ "' is proprietary and not available on Open VSX"))
  else
    match EXTENSION_MAPPINGS.lookup e with
    | some m =>
      (some m, some ("Extension '" ++ e ++ "' mapped to '" ++ m ++ "' for Open VSX"))
    | none => (some e, none)

/-- The per-extension loop of `_generate_extension_install_commands`
(lines 487-492), accumulating `(warnings, valid_extensions)`.  Python's
`if warning:` and `if mapped_id:` are truthiness tests, so a `None` or
empty-string result is not appended. -/
def extensionScan (extensions : List String) : List String × List String :=
  extensions.foldl
    (fun wv ext =>
      let mw := map_extension_to_openvsx ext
      let w1 := match mw.2 with
        | some w => if w ≠ "" then wv.1 ++ [w] else wv.1
        | none => wv.1
      let v1 := match mw.1 with
        | some m => if m ≠ "" then wv.2 ++ [m] else wv.2
        | none => wv.2
      (w1, v1))
    ([], [])

/-- `_generate_extension_install_commands` (lines 473-508): returns the
Dockerfile `RUN` block (empty when there are no declared or no surviving
extensions) and the warning list. -/
def generate_extension_install_commands (extensions : List String) : String × List String :=
  if extensions = [] then ("", [])
  else
    let wv := extensionScan extensions
    if wv.2 = [] then ("", wv.1)
    else
      ("\n# Install VS Code extensions from Open VSX registry\n" ++
         "# Note: Extensions are sourced from https://open-vsx.org (not Microsoft marketplace)\n" ++
         "RUN " ++
         " && \\\n    ".intercalate
           (wv.2.map (fun ext => "openvscode-server --install-extension " ++ ext)) ++
         "\n",
       wv.1)

/-- What one extension contributes to `valid_extensions`. -/
def extensionValidOf (e : String) : Option String :=
  match (map_extension_to_openvsx e).1 with
  | some m => if m ≠ "" then some m else none
  | none => none

/-- What one extension contributes to `warnings`. -/
def extensionWarningOf (e : String) : Option String :=
  match (map_extension_to_openvsx e).2 with
  | some w => if w ≠ "" then some w else none
  | none => none

/-- The scan loop is an order-preserving `filterMap` in each component. -/
theorem extensionScan_eq_filterMap (extensions : List String) :
    extensionScan extensions =
      (extensions.filterMap extensionWarningOf, extensions.filterMap extensionValidOf) := by
  have step : ∀ (l : List String) (w v : List String),
      l.foldl
        (fun wv ext =>
          let mw := map_extension_to_openvsx ext
          let w1 := match mw.2 with
            | some w => if w ≠ "" then wv.1 ++ [w] else wv.1
            | none => wv.1
          let v1 := match mw.1 with
            | some m => if m ≠ "" then wv.2 ++ [m] else wv.2
            | none => wv.2
          (w1, v1))
        (w, v) =
        (w ++ l.filterMap extensionWarningOf, v ++ l.filterMap extensionValidOf) := by
    intro l
    induction l with
    | nil => intro w v; simp
    | cons e rest ih =>
      intro w v
      rw [List.foldl_cons]
      rw [ih]
      unfold extensionWarningOf extensionValidOf
      cases hw : (map_extension_to_openvsx e).2 with
      | none =>
        cases hv : (map_extension_to_openvsx e).1 with
        | none => simp [hw, hv]
        | some m =>
          by_cases hm : m = "" <;> simp [hw, hv, hm]
      | some wmsg =>
        cases hv : (map_extension_to_openvsx e).1 with
        | none =>
          by_cases hwm : wmsg = "" <;> simp [hw, hv, hwm]
        | some m =>
          by_cases hm : m = "" <;> by_cases hwm : wmsg = "" <;>
            simp [hw, hv, hm, hwm]
  exact step extensions [] []

/- ===== Section 5: the two render paths (`render_standalone`, `_render_with_custom_dockerfile`) ===== -/

/-- Python truthiness of a lifecycle command value, as tested by
`if on_create:` / `if post_create:` before formatting: empty strings,
empty arrays and empty objects are falsy; for `other` values the carried
truthiness of the concrete JSON value is used. -/
def cmdTruthy : CommandSpec → Bool
  | .str s => !s.isEmpty
  | .list l => !l.isEmpty
  | .dict d => !d.isEmpty
  | .other b => b

/-- The `env_lines` accumulation of `render_standalone` (lines 535-538):
one `ENV key=value` line per retained `containerEnv` entry. -/
def env_lines (containerEnv : List (String × String)) : String :=
  containerEnv.foldl
    (fun acc kv =>
      if usesLocalSubstitution kv.2 then acc
      else acc ++ "ENV " ++ kv.1 ++ "=" ++ kv.2 ++ "\n")
    ""

/-- One lifecycle command's contribution to `lifecycle_cmds` in
`render_standalone` (lines 545-552): emitted only when the raw value is
truthy and `_format_lifecycle_command` returned a truthy string. -/
def runFragmentStandalone (c : Option CommandSpec) : String :=
  match c with
  | none => ""
  | some cs =>
    if cmdTruthy cs then
      match format_lifecycle_command cs with
      | some f => if f ≠ "" then "RUN " ++ f ++ "\n\n" else ""
      | none => ""
    else ""

/-- The `lifecycle_cmds` string of `render_standalone`: `onCreateCommand`
then `postCreateCommand`. -/
def lifecycle_cmds (onCreate postCreate : Option CommandSpec) : String :=
  runFragmentStandalone onCreate ++ runFragmentStandalone postCreate

/-- Fixed template text of `render_standalone` between the `{base_image}`
and `{nb_user}` substitution points (its banner rows are `# ` followed by
77 `=` signs, built by `List.replicate`).  The `standaloneLit2` ..
`standaloneLit6` definitions below carry the fixed text between the
remaining substitution points, with the `EXPOSE 8888` instruction and the
fallback `CMD` line split out as chunks of their own in
`render_standalone`. -/
def standaloneLit1 : String :=
  "\n" ++
  "\n" ++
  ("# " ++ String.mk (List.replicate 77 '=') ++ "\n") ++
  "# NOTE: This Dockerfile assumes a Debian/Ubuntu-based image with apt-get.\n" ++
  "# Alpine (apk), RHEL (yum/dnf), or other distros will require modifications.\n" ++
  ("# " ++ String.mk (List.replicate 77 '=') ++ "\n") ++
  "\n" ++
  "# Avoid prompts from apt\n" ++
  "ENV DEBIAN_FRONTEND=noninteractive\n" ++
  "\n" ++
  "# Set up locales properly\n" ++
  "RUN apt-get -qq update && \\\n" ++
  "    apt-get -qq install --yes --no-install-recommends locales > /dev/null && \\\n" ++
  "    apt-get -qq purge && \\\n" ++
  "    apt-get -qq clean && \\\n" ++
  "    rm -rf /var/lib/apt/lists/*\n" ++
  "\n" ++
  "RUN echo \"en_US.UTF-8 UTF-8\" > /etc/locale.gen && \\\n" ++
  "    locale-gen\n" ++
  "\n" ++
  "ENV LC_ALL=en_US.UTF-8 \\\n" ++
  "    LANG=en_US.UTF-8 \\\n" ++
  "    LANGUAGE=en_US.UTF-8\n" ++
  "\n" ++
  "# Use bash as default shell\n" ++
  "ENV SHELL=/bin/bash\n" ++
  "\n" ++
  "# Set up user - MUST be UID 1000 for JupyterHub compatibility\n" ++
  "ARG NB_USER="

def standaloneLit2 : String :=
  "\n" ++
  "ARG NB_UID=1000\n" ++
  "ENV USER=$\x7bNB_USER\x7d \\\n" ++
  "    HOME=/home/$\x7bNB_USER\x7d \\\n" ++
  "    NB_USER=$\x7bNB_USER\x7d \\\n" ++
  "    NB_UID=1000\n" ++
  "\n" ++
  "RUN groupadd --gid 1000 $\x7bNB_USER\x7d && \\\n" ++
  "    useradd --comment \"Default user\" --create-home --gid 1000 \\\n" ++
  "            --no-log-init --shell /bin/bash --uid 1000 $\x7bNB_USER\x7d\n" ++
  "\n" ++
  "# Install base packages\n" ++
  "RUN apt-get -qq update && \\\n" ++
  "    apt-get -qq install --yes --no-install-recommends \\\n" ++
  "        ca-certificates \\\n" ++
  "        curl \\\n" ++
  "        git \\\n" ++
  "        less \\\n" ++
  "        unzip \\\n" ++
  "        wget \\\n" ++
  "        python3 \\\n" ++
  "        python3-pip \\\n" ++
  "        python3-venv \\\n" ++
  "        > /dev/null && \\\n" ++
  "    apt-get -qq purge && \\\n" ++
  "    apt-get -qq clean && \\\n" ++
  "    rm -rf /var/lib/apt/lists/*\n" ++
  "\n" ++
  "# Ensure pip scripts are on PATH (required for jupyterhub-singleuser)\n" ++
  "ENV PATH=$\x7bHOME\x7d/.local/bin:$PATH\n" ++
  "\n" ++
  "# Create Python virtual environment in /opt (survives JupyterHub bind-mount of /home)\n" ++
  "# JupyterHub bind-mounts /home/jovyan, wiping ~/.local/bin - so we install to /opt\n" ++
  "ENV VIRTUAL_ENV=/opt/venv\n" ++
  "RUN python3 -m venv $VIRTUAL_ENV && \\\n" ++
  "    chown -R 1000:1000 $VIRTUAL_ENV\n" ++
  "ENV PATH=$VIRTUAL_ENV/bin:$PATH\n" ++
  "\n"

def standaloneLit3 : String :=
  "\n" ++
  "\n" ++
  "# Install openvscode-server for VS Code in browser (must run as root to write to /opt)\n" ++
  "# Using openvscode-server (Gitpod) for better upstream VS Code alignment\n" ++
  "# Note: We query GitHub API to get correct download URL (filename includes version)\n" ++
  "RUN OVSCODE_VERSION=$(curl -sL https://api.github.com/repos/gitpod-io/openvscode-server/releases/latest | grep '\"tag_name\"' | sed -E 's/.*\"([^\"]+)\".*/\\1/') && \\\n" ++
  "    curl -fsSL \"https://github.com/gitpod-io/openvscode-server/releases/download/$\x7bOVSCODE_VERSION\x7d/$\x7bOVSCODE_VERSION\x7d-linux-x64.tar.gz\" | \\\n" ++
  "    tar -xz -C /opt && \\\n" ++
  "    mv /opt/openvscode-server-* /opt/openvscode-server && \\\n" ++
  "    chown -R 1000:1000 /opt/openvscode-server\n" ++
  "\n" ++
  "ENV PATH=/opt/openvscode-server/bin:$PATH\n" ++
  "\n" ++
  "# Configure openvscode-server to use Open VSX registry (not Microsoft marketplace)\n" ++
  "ENV OPENVSCODE_SERVER_EXTENSIONS_DIR=/opt/openvscode-server/extensions\n" ++
  "\n" ++
  "# Environment variables from devcontainer.json\n"

def standaloneLit4 : String :=
  "\n" ++
  "# Set working directory\n" ++
  "ARG REPO_DIR=$\x7bHOME\x7d\n" ++
  "ENV REPO_DIR=$\x7bREPO_DIR\x7d\n" ++
  "WORKDIR $\x7bREPO_DIR\x7d\n" ++
  "\n" ++
  "# Copy repository contents\n" ++
  "COPY --chown=1000:1000 . $\x7bREPO_DIR\x7d/\n" ++
  "\n" ++
  "# Switch to user for pip installs and extensions\n" ++
  "USER $\x7bNB_USER\x7d\n" ++
  "\n" ++
  "# Install JupyterHub requirements to /opt/venv (not ~/.local which gets bind-mounted)\n" ++
  "# jupyterhub provides jupyterhub-singleuser which is REQUIRED for JupyterHub\n" ++
  "# jupyter-vscode-proxy enables VS Code (openvscode-server) in JupyterHub\n" ++
  "RUN pip install --no-cache-dir \\\n" ++
  "    jupyterhub \\\n" ++
  "    jupyterlab \\\n" ++
  "    notebook \\\n" ++
  "    jupyter-vscode-proxy\n"

def standaloneLit5 : String :=
  "\n" ++
  "\n" ++
  "# Run lifecycle commands from devcontainer.json\n"

def standaloneLit6 : String :=
  "\n" ++
  "# JupyterHub will provide the start command (jupyterhub-singleuser)\n" ++
  "# This CMD is a fallback for standalone usage\n"

def customLit1 : String :=
  "\n" ++
  "\n" ++
  "# --- repo2docker additions for JupyterHub compatibility ---\n" ++
  "\n" ++
  "# Set up user if not already set\n" ++
  "ARG NB_USER="

def customLit2 : String :=
  "\n" ++
  "ENV USER=$\x7bNB_USER\x7d \\\n" ++
  "    HOME=/home/$\x7bNB_USER\x7d\n" ++
  "\n" ++
  "# Create user if it doesn't exist\n" ++
  "RUN if ! id -u $\x7bNB_USER\x7d > /dev/null 2>&1; then \\\n" ++
  "        groupadd --gid $\x7bNB_UID\x7d $\x7bNB_USER\x7d && \\\n" ++
  "        useradd --comment \"Default user\" --create-home --gid $\x7bNB_UID\x7d \\\n" ++
  "                --no-log-init --shell /bin/bash --uid $\x7bNB_UID\x7d $\x7bNB_USER\x7d; \\\n" ++
  "    fi\n" ++
  "\n" ++
  "# Ensure Python and JupyterLab are installed\n" ++
  "RUN apt-get -qq update && \\\n" ++
  "    apt-get -qq install --yes --no-install-recommends \\\n" ++
  "        python3 python3-pip python3-venv > /dev/null && \\\n" ++
  "    apt-get -qq purge && apt-get -qq clean && \\\n" ++
  "    rm -rf /var/lib/apt/lists/*\n" ++
  "\n" ++
  "USER $\x7bNB_USER\x7d\n" ++
  "\n" ++
  "RUN python3 -m pip install --no-cache-dir jupyterlab notebook\n" ++
  "\n" ++
  "# Set working directory\n" ++
  "ARG REPO_DIR=$\x7bHOME\x7d\n" ++
  "ENV REPO_DIR=$\x7bREPO_DIR\x7d\n" ++
  "WORKDIR $\x7bREPO_DIR\x7d\n" ++
  "\n"

/-- `render_standalone` (lines 510-672): the f-string template with its five
substitution points; the fixed text between them is carried by the
`standaloneLit*` definitions, with the `EXPOSE 8888` instruction and the
fallback `CMD` kept as chunks of their own.  (`NB_UID` is read from
`build_args` but the template hardcodes 1000.) -/
def render_standalone (baseImage nbUser : String)
    (containerEnv : List (String × String)) (onCreate postCreate : Option CommandSpec)
    (extensions : List String) : String :=
  "FROM " ++ baseImage ++ standaloneLit1 ++ nbUser ++ standaloneLit2 ++
    "EXPOSE 8888" ++ standaloneLit3 ++ env_lines containerEnv ++ standaloneLit4 ++
    (generate_extension_install_commands extensions).1 ++ standaloneLit5 ++
    lifecycle_cmds onCreate postCreate ++ standaloneLit6 ++
    "CMD [\"jupyterhub-singleuser\", \"--ip=0.0.0.0\", \"--port=8888\"]" ++ "\n"

/-- One lifecycle command's appended fragment in
`_render_with_custom_dockerfile` (lines 760-770). -/
def runFragmentCustom (c : Option CommandSpec) : String :=
  match c with
  | none => ""
  | some cs =>
    if cmdTruthy cs then
      match format_lifecycle_command cs with
      | some f => if f ≠ "" then "\nRUN " ++ f ++ "\n" else ""
      | none => ""
    else ""

/-- Everything `_render_with_custom_dockerfile` appends after the user's
Dockerfile content: the fixed compatibility block (with the `nb_user` and
`nb_uid` substitutions) followed by the lifecycle fragments. -/
def customTail (nbUser nbUid : String) (onCreate postCreate : Option CommandSpec) : String :=
  customLit1 ++ nbUser ++ "\nARG NB_UID=" ++ nbUid ++ customLit2 ++
    "EXPOSE 8888" ++ "\n\n" ++
    "CMD [\"jupyter\", \"notebook\", \"--ip\", \"0.0.0.0\"]" ++ "\n" ++
    runFragmentCustom onCreate ++ runFragmentCustom postCreate

/-- `_render_with_custom_dockerfile` (lines 696-772): the user's Dockerfile
content followed by the appended block.  (`build.args` is read from the
manifest but never interpolated into the template.) -/
def render_with_custom_dockerfile (userDockerfile nbUser nbUid : String)
    (onCreate postCreate : Option CommandSpec) : String :=
  userDockerfile ++ customTail nbUser nbUid onCreate postCreate

/- ===== Section 6: substring helpers for the render theorems ===== -/

/-- `needle` occurs as a contiguous substring of `hay`. -/
def strContains (hay needle : String) : Prop := needle.data <:+: hay.data

theorem strContains_refl (x : String) : strContains x x := List.infix_refl _

theorem strContains_appL {a x : String} (h : strContains a x) (b : String) :
    strContains (a ++ b) x := by
  obtain ⟨s, t, hst⟩ := h
  refine ⟨s, t ++ b.data, ?_⟩
  rw [String.data_append, ← hst]
  simp [List.append_assoc]

theorem strContains_appR (a : String) {b x : String} (h : strContains b x) :
    strContains (a ++ b) x := by
  obtain ⟨s, t, hst⟩ := h
  refine ⟨a.data ++ s, t, ?_⟩
  rw [String.data_append, ← hst]
  simp [List.append_assoc]

/- ===== Section 7: the claims ===== -/

/-- Claim C1, counterexample: the dict shape `{"x": "echo 1", "y": "echo 2"}`
does not normalize to the four lines `# x` / `echo 1 && \` / `# y` /
`echo 2` claimed (comment line followed by plain command on the next line);
the `" && \\\n"` join is applied between every pair of adjacent elements of
the `commands` list, comment lines included, so the comment lines other
than the last element also end in ` && \`. -/
theorem c1_dict_normalization_counterexample :
    format_lifecycle_command
        (.dict [("x", .str "echo 1"), ("y", .str "echo 2")]) ≠
      some ("# x\n" ++ "echo 1 && \\\n" ++ "# y\n" ++ "echo 2") ∧
    format_lifecycle_command
        (.dict [("x", .str "echo 1"), ("y", .str "echo 2")]) =
      some ("# x && \\\n" ++ "echo 1 && \\\n" ++ "# y && \\\n" ++ "echo 2") := by
  constructor
  · simp [format_lifecycle_command, formatDictEntries]
    decide
  · simp [format_lifecycle_command, formatDictEntries]
    decide

/-- Claim C1, amended: a mapping is normalized in declaration order; each
entry whose recursively normalized value is non-empty contributes the two
list elements `# <name>` and the command, and the whole element list —
comment lines included — is joined by ` && \` plus a newline; the example
therefore normalizes to the four lines `# x && \` / `echo 1 && \` /
`# y && \` / `echo 2`. -/
theorem c1_dict_normalization_amended :
    (∀ entries : List (String × CommandSpec),
      format_lifecycle_command (.dict entries) =
        (if formatDictEntries entries [] = [] then none
         else some (" && \\\n".intercalate (formatDictEntries entries []))) ∧
      formatDictEntries entries [] =
        entries.flatMap (fun e =>
          match format_lifecycle_command e.2 with
          | some f => if f ≠ "" then ["# " ++ e.1, f] else []
          | none => [])) ∧
    format_lifecycle_command (.dict [("x", .str "echo 1"), ("y", .str "echo 2")]) =
      some ("# x && \\\n" ++ "echo 1 && \\\n" ++ "# y && \\\n" ++ "echo 2") := by
  refine ⟨fun entries => ⟨?_, formatDictEntries_eq_flatMap entries⟩, ?_⟩
  · simp [format_lifecycle_command]
  · simp [format_lifecycle_command, formatDictEntries]
    decide

/-- Claim C2: on input whose scan never meets a `//` or `/*` opener outside
a double-quoted string, `_strip_jsonc_comments` returns the input
unchanged — no character inside a string is altered or removed. -/
theorem c2_strings_preserved (s : String) (h : hasCommentOutsideString s = false) :
    strip_jsonc_comments s = s := by
  unfold strip_jsonc_comments
  rw [stripAux_of_no_comment _ _ _ h]

/-- Witness for C2 at the claim's own example: `{"url": "http://x.com"}`
(both `//` tokens inside the string) strips to itself. -/
theorem c2_strings_preserved_witness :
    hasCommentOutsideString "\x7b\"url\": \"http://x.com\"\x7d" = false ∧
    strip_jsonc_comments "\x7b\"url\": \"http://x.com\"\x7d" =
      "\x7b\"url\": \"http://x.com\"\x7d" :=
  ⟨by simp [hasCommentOutsideString, hasCommentAux],
   c2_strings_preserved _ (by simp [hasCommentOutsideString, hasCommentAux])⟩

/-- Claim C3, counterexample: on `a/*bc` the `/*` has no matching `*/`, yet
the stripper returns `ac`, not `a` — the final input character `c` survives
because the skip loop runs only while two characters remain, and the main
loop then processes the last character normally. -/
theorem c3_unterminated_block_counterexample :
    strip_jsonc_comments "a/*bc" = "ac" ∧ strip_jsonc_comments "a/*bc" ≠ "a" := by
  constructor
  · simp [strip_jsonc_comments, stripAux, skipBlockComment]
  · simp [strip_jsonc_comments, stripAux, skipBlockComment]

/-- Claim C3, amended: at an unterminated `/*` (no `*/` pair anywhere
after the opener), the stripper consumes everything up to but not
including the final character of the input, which is processed (and
copied) normally; only when the input ends at the opener itself is
nothing further emitted. -/
theorem c3_unterminated_block_amended (l : List Char) (h : noBlockCommentEnd l = true) :
    strip_jsonc_comments (String.mk ('/' :: '*' :: l)) = String.mk l.getLast?.toList := by
  unfold strip_jsonc_comments
  exact congrArg String.mk (strip_unterminated_block l h)

/-- Witness for the amended C3: `/*abc` strips to just `c`. -/
theorem c3_unterminated_block_amended_witness :
    noBlockCommentEnd "abc".data = true ∧
    strip_jsonc_comments (String.mk ('/' :: '*' :: "abc".data)) =
      String.mk ("abc".data.getLast?.toList) :=
  ⟨by decide, c3_unterminated_block_amended _ (by decide)⟩

/-- Claim C10: the stripper is idempotent — its output never contains a
removable comment opener outside a string, so stripping it again is the
identity. -/
theorem c10_strip_idempotent (s : String) :
    hasCommentOutsideString (strip_jsonc_comments s) = false ∧
    strip_jsonc_comments (strip_jsonc_comments s) = strip_jsonc_comments s := by
  have hb := no_comment_in_stripAux s.data.length s.data (le_refl _) false false
  refine ⟨hb, ?_⟩
  show String.mk (stripAux (stripAux s.data false false) false false) = _
  rw [stripAux_of_no_comment _ _ _ hb]
  rfl

/-- Claim C7: a string command passes through unchanged, and a token list is
normalized to the shell-quoted tokens joined by single spaces in order;
`["echo", "a", "b"]` gives `echo a b`. -/
theorem c7_string_and_list_normalization :
    (∀ s : String, format_lifecycle_command (.str s) = some s) ∧
    (∀ parts : List String,
      format_lifecycle_command (.list parts) = some (" ".intercalate (parts.map shlexQuote))) ∧
    format_lifecycle_command (.list ["echo", "a", "b"]) = some "echo a b" := by
  refine ⟨fun s => by simp [format_lifecycle_command],
          fun parts => by simp [format_lifecycle_command], ?_⟩
  simp [format_lifecycle_command, shlexQuote, shlexSafeChar]
  decide

/-- Every-entry-empty dicts contribute nothing to the `commands` list. -/
theorem formatDictEntries_nil_of_empty : ∀ (entries : List (String × CommandSpec)),
    (∀ e ∈ entries, format_lifecycle_command e.2 = none ∨ format_lifecycle_command e.2 = some "") →
    formatDictEntries entries [] = []
  | [], _ => by simp [formatDictEntries]
  | (name, cmd) :: rest, h => by
    rw [formatDictEntries]
    rcases h (name, cmd) (List.mem_cons_self _ _) with hc | hc
    · rw [hc]
      exact formatDictEntries_nil_of_empty rest (fun e he => h e (List.mem_cons_of_mem _ he))
    · rw [hc]
      simp only [ne_eq, not_true_eq_false, ite_false, if_neg]
      exact formatDictEntries_nil_of_empty rest (fun e he => h e (List.mem_cons_of_mem _ he))

/-- Claim C8: a command value that is none of string, list or dict
normalizes to absent (`None`) rather than raising; the empty dict, and any
dict whose every entry normalizes to `None` or to the empty string, also
yield absent, never an empty string. -/
theorem c8_invalid_and_empty_commands :
    (∀ b : Bool, format_lifecycle_command (.other b) = none) ∧
    format_lifecycle_command (.dict []) = none ∧
    (∀ entries : List (String × CommandSpec),
      (∀ e ∈ entries,
        format_lifecycle_command e.2 = none ∨ format_lifecycle_command e.2 = some "") →
      format_lifecycle_command (.dict entries) = none) := by
  refine ⟨fun b => by simp [format_lifecycle_command],
          by simp [format_lifecycle_command, formatDictEntries], ?_⟩
  intro entries h
  have hnil := formatDictEntries_nil_of_empty entries h
  simp [format_lifecycle_command, hnil]

/-- Claim C5: both environment extractors append, to the inherited base
environment and in insertion order, exactly the entries whose value does
not contain `${localEnv:` or `${localWorkspaceFolder` as a substring;
retained pairs are kept whole (key and value intact). -/
theorem c5_env_filtering :
    ∀ (base cenv : List (String × String)),
      get_build_env base cenv = base ++ cenv.filter (fun kv => !usesLocalSubstitution kv.2) ∧
      get_env base cenv = base ++ cenv.filter (fun kv => !usesLocalSubstitution kv.2) ∧
      (∀ k v : String,
        (k, v) ∈ cenv.filter (fun kv => !usesLocalSubstitution kv.2) ↔
          ((k, v) ∈ cenv ∧ ¬("$\x7blocalEnv:".data <:+: v.data) ∧
            ¬("$\x7blocalWorkspaceFolder".data <:+: v.data))) ∧
      (cenv.filter (fun kv => !usesLocalSubstitution kv.2)).Sublist cenv := by
  intro base cenv
  refine ⟨env_foldl_eq_filter cenv base, env_foldl_eq_filter cenv base, ?_, List.filter_sublist _⟩
  intro k v
  rw [List.mem_filter]
  simp [usesLocalSubstitution, and_assoc]

/-- Claim C6, counterexample: the empty-string extension id is in neither
table, yet contributes nothing to the install list — Python's
`if mapped_id:` truthiness test drops the falsy empty string. -/
theorem c6_extension_mapping_counterexample :
    "" ∉ PROPRIETARY_EXTENSIONS ∧
    EXTENSION_MAPPINGS.lookup "" = none ∧
    (extensionScan [""]).2 = [] := by
  refine ⟨by decide, rfl, rfl⟩

/-- Claim C6, amended: per declared id, in declaration order and with
duplicates preserved, the install list receives nothing for a blocked id
and the id itself for a nonempty id in neither table (the remap table is
empty in the source), and the warning list receives exactly one fixed
message per blocked id; an empty-string id contributes nothing and no
warning.  The claim's own scenario: `github.copilot` is blocked with a
warning while `some.extension` passes through. -/
theorem c6_extension_mapping_amended :
    (∀ exts : List String,
      (extensionScan exts).2 = exts.filterMap extensionValidOf ∧
      (extensionScan exts).1 = exts.filterMap extensionWarningOf) ∧
    (∀ e ∈ PROPRIETARY_EXTENSIONS,
      extensionValidOf e = none ∧
      extensionWarningOf e =
        some ("Extension '" ++ e ++ "' is proprietary and not available on Open VSX")) ∧
    (∀ e : String, e ∉ PROPRIETARY_EXTENSIONS → e ≠ "" →
      extensionValidOf e = some e ∧ extensionWarningOf e = none) ∧
    (extensionScan ["github.copilot", "some.extension"]).2 = ["some.extension"] ∧
    (extensionScan ["github.copilot", "some.extension"]).1 =
      ["Extension 'github.copilot' is proprietary and not available on Open VSX"] := by
  refine ⟨?_, ?_, ?_, rfl, rfl⟩
  · intro exts
    rw [extensionScan_eq_filterMap]
    exact ⟨rfl, rfl⟩
  · intro e he
    simp only [PROPRIETARY_EXTENSIONS, List.mem_cons, List.not_mem_nil, or_false] at he
    rcases he with rfl | rfl | rfl | rfl | rfl | rfl | rfl | rfl <;> exact ⟨by decide, by decide⟩
  · intro e hnot hne
    unfold extensionValidOf extensionWarningOf map_extension_to_openvsx
    rw [if_neg hnot]
    simp [EXTENSION_MAPPINGS, hne]

/-- Claim C4: for every extracted manifest configuration, both render
paths emit a build script containing the `EXPOSE 8888` instruction and the
fallback entrypoint `CMD` (the standalone path invokes
`jupyterhub-singleuser`, the Dockerfile-extension path the notebook
server). -/
theorem c4_expose_and_entrypoint :
    (∀ (baseImage nbUser : String) (containerEnv : List (String × String))
        (onCreate postCreate : Option CommandSpec) (extensions : List String),
      strContains
        (render_standalone baseImage nbUser containerEnv onCreate postCreate extensions)
        "EXPOSE 8888" ∧
      strContains
        (render_standalone baseImage nbUser containerEnv onCreate postCreate extensions)
        "CMD [\"jupyterhub-singleuser\", \"--ip=0.0.0.0\", \"--port=8888\"]") ∧
    (∀ (userDockerfile nbUser nbUid : String) (onCreate postCreate : Option CommandSpec),
      strContains
        (render_with_custom_dockerfile userDockerfile nbUser nbUid onCreate postCreate)
        "EXPOSE 8888" ∧
      strContains
        (render_with_custom_dockerfile userDockerfile nbUser nbUid onCreate postCreate)
        "CMD [\"jupyter\", \"notebook\", \"--ip\", \"0.0.0.0\"]") := by
  constructor
  · intro bi nb cenv oc pc exts
    constructor
    · unfold render_standalone
      repeat first
        | exact strContains_appR _ (strContains_refl _)
        | apply strContains_appL
    · unfold render_standalone
      repeat first
        | exact strContains_appR _ (strContains_refl _)
        | apply strContains_appL
  · intro ud nb uid oc pc
    constructor
    · unfold render_with_custom_dockerfile
      apply strContains_appR
      unfold customTail
      repeat first
        | exact strContains_appR _ (strContains_refl _)
        | apply strContains_appL
    · unfold render_with_custom_dockerfile
      apply strContains_appR
      unfold customTail
      repeat first
        | exact strContains_appR _ (strContains_refl _)
        | apply strContains_appL

/-- Claim C9: the Dockerfile-extension render output begins with the
user's Dockerfile content byte for byte, and everything generated is the
appended tail `customTail`, which does not depend on the user content. -/
theorem c9_user_dockerfile_prefix :
    ∀ (userDockerfile nbUser nbUid : String) (onCreate postCreate : Option CommandSpec),
      userDockerfile.data <+:
        (render_with_custom_dockerfile userDockerfile nbUser nbUid onCreate postCreate).data ∧
      render_with_custom_dockerfile userDockerfile nbUser nbUid onCreate postCreate =
        userDockerfile ++ customTail nbUser nbUid onCreate postCreate := by
  intro ud nb uid oc pc
  exact ⟨⟨(customTail nb uid oc pc).data, (String.data_append _ _).symm⟩, rfl⟩
